import Mathlib

/-!
Verification of the tanstack-notebook documentation site.

The repository's dynamic behaviour lives in `src/routes/docs/$.tsx`: a
catch-all route whose loader splits the splat into slug segments, asks a
server function to resolve the page, preloads the compiled content for the
returned path, and renders the page inside a layout with a hand-authored
navigation tree. The content index itself is owned by an external
content-collection library; it is modelled here from the spec and from the
repository's Markdown content files.
-/

namespace TanstackNotebook

/-- A content page of the external content source's index: the slug segments
that identify it and its canonical file path relative to the content root. -/
structure ContentPage where
  slugs : List String
  path : String
deriving DecidableEq, Repr

/-- Modelled from the spec: the content source's page index is "owned and
maintained entirely by an external content-collection library" and resolves
pages "identified by a path (derived from URL slug segments)". It is
reconstructed from the repository's Markdown content files under
`content/docs`: a parenthesised folder is a route group and contributes no
slug segment, and each file's canonical path is its path below the content
root. The two content files of unknown location (`unnamed/part_000`, a page
titled Navigation, and `unnamed/part_001`, a page titled useSearch) are placed
by the sidebar section that links to them; only their slugs matter below. -/
def contentIndex : List ContentPage :=
  [ ⟨["basic-routing"], "(basics)/basic-routing.md"⟩,
    ⟨["path-params"], "(basics)/path-params.md"⟩,
    ⟨["search-params"], "(basics)/search-params.md"⟩,
    ⟨["navigation"], "(basics)/navigation.md"⟩,
    ⟨["use-location"], "(hooks)/use-location.md"⟩,
    ⟨["use-navigate"], "(hooks)/use-navigate.md"⟩,
    ⟨["use-params"], "(hooks)/use-params.md"⟩,
    ⟨["use-search"], "(hooks)/use-search.md"⟩,
    ⟨["pagination"], "(usages)/pagination.md"⟩ ]

/-- Modelled from the spec: `source.getPage`, the external content source's
lookup of a page by its slug segments, absent from `src/`. -/
def getPage (slugs : List String) : Option ContentPage :=
  contentIndex.find? (fun p => p.slugs == slugs)

/-- Modelled from the spec: the page-tree object the external content source
derives from the content files (`source.pageTree`); the repository treats it
as opaque and only forwards it. -/
structure PageTree where
  items : List ContentPage
deriving DecidableEq, Repr

/-- Modelled from the spec: `source.pageTree`, the content source's whole page
tree, a single object owned by the external library. -/
def pageTree : PageTree :=
  ⟨contentIndex⟩

/-- Result of the server function: `{ tree: source.pageTree, path: page.path }`
(src/src/routes/docs/$.tsx, loader handler). -/
structure LoaderResult where
  tree : PageTree
  path : String
deriving DecidableEq, Repr

/-- The server function handler of src/src/routes/docs/$.tsx: look up the page
for the given slugs with `source.getPage`; when absent, `throw notFound()`
(modelled as `none`); otherwise return the page tree and the page's path. -/
def loader (slugs : List String) : Option LoaderResult :=
  match getPage slugs with
  | none => none
  | some page => some { tree := pageTree, path := page.path }

/-- JavaScript String.prototype.split with a one-character separator, on the
underlying character list: segments are cut at every separator occurrence, and
splitting the empty string yields one empty segment. -/
def jsSplitAux (sep : Char) (acc : List Char) : List Char → List String
  | [] => [String.mk acc.reverse]
  | c :: cs =>
    if c = sep then String.mk acc.reverse :: jsSplitAux sep [] cs
    else jsSplitAux sep (c :: acc) cs

/-- JavaScript `s.split(sep)` for a one-character separator. -/
def jsSplit (sep : Char) (s : String) : List String :=
  jsSplitAux sep [] s.data

/-- Slug derivation of `Route.loader`: in the source,
`params._splat?.split("/") ?? []`. An absent splat gives the empty list; a
present splat is split on the slash, where JavaScript splitting of the empty
string yields one empty segment. -/
def slugsOfSplat (splat : Option String) : List String :=
  match splat with
  | none => []
  | some s => jsSplit '/' s

/-- Observable outcome of `Route.loader`: the loader data it returns (none when
not-found propagated) and the paths passed to `clientLoader.preload`, in
order. -/
structure RouteLoaderOutcome where
  result : Option LoaderResult
  preloads : List String
deriving DecidableEq, Repr

/-- The route loader of src/src/routes/docs/$.tsx: derive slugs from the splat,
await the server function, and on success preload the compiled content for the
returned path before returning the data. A thrown not-found aborts the loader:
the preload call is never reached and no data is produced. -/
def routeLoader (splat : Option String) : RouteLoaderOutcome :=
  match loader (slugsOfSplat splat) with
  | none => { result := none, preloads := [] }
  | some data => { result := some data, preloads := [data.path] }

/-- Node kinds of the hand-authored sidebar tree. -/
inductive NodeType
  | page
  | separator
deriving DecidableEq, Repr

/-- A node of the hand-authored navigation tree passed to `DocsLayout`. -/
structure TreeNode where
  name : String
  type : NodeType
  url : Option String
deriving DecidableEq, Repr

/-- The navigation tree's root: a name and its ordered children. -/
structure NavTree where
  name : String
  children : List TreeNode
deriving DecidableEq, Repr

/-- The hand-authored navigation tree passed to `DocsLayout` in the `Page`
component of src/src/routes/docs/$.tsx, transcribed node by node. -/
def sidebarTree : NavTree :=
  { name := "docs",
    children :=
      [ ⟨"Introduction", NodeType.page, some "/docs"⟩,
        ⟨"Basics", NodeType.separator, none⟩,
        ⟨"Layouts and Pages", NodeType.page, some "/docs/basic-routing"⟩,
        ⟨"Path Params", NodeType.page, some "/docs/path-params"⟩,
        ⟨"Navigation", NodeType.page, some "/docs/navigation"⟩,
        ⟨"Search Params", NodeType.page, some "/docs/search-params"⟩,
        ⟨"Hooks", NodeType.separator, none⟩,
        ⟨"useNavigate", NodeType.page, some "/docs/use-navigate"⟩,
        ⟨"useParams", NodeType.page, some "/docs/use-params"⟩,
        ⟨"useSearch", NodeType.page, some "/docs/use-search"⟩,
        ⟨"useLocation", NodeType.page, some "/docs/use-location"⟩,
        ⟨"Usage", NodeType.separator, none⟩,
        ⟨"Pagination", NodeType.page, some "/docs/pagination"⟩ ] }

/-- What the `Page` component renders, as far as the spec observes it: the
navigation tree handed to `DocsLayout` and the path handed to
`clientLoader.getComponent`. -/
structure PageRender where
  tree : NavTree
  contentPath : String
deriving DecidableEq, Repr

/-- The `Page` component of src/src/routes/docs/$.tsx: obtains the content
component via `clientLoader.getComponent(data.path)` and renders `DocsLayout`
with the hand-authored navigation tree. -/
def renderPage (data : LoaderResult) : PageRender :=
  { tree := sidebarTree, contentPath := data.path }

/-- Invariant of a sidebar node: a page node carries a url and a separator
node carries none. -/
def nodeUrlInvariant (n : TreeNode) : Bool :=
  match n.type, n.url with
  | NodeType.page, some _ => true
  | NodeType.separator, none => true
  | _, _ => false

/-- A documentation URL's remainder after the `/docs/` route base, when the
URL lies under it. -/
def stripDocsSlash : List Char → Option (List Char)
  | '/' :: 'd' :: 'o' :: 'c' :: 's' :: '/' :: rest => some rest
  | _ => none

/-- Modelled from the spec: the external router maps a documentation URL to
the slug segments captured by the catch-all `/docs/$` route ("the variable
path segment(s) captured by a catch-all route, used to look up a specific
content page"): the part of the URL after `/docs/`, split on the slash, and
the bare `/docs` URL captures no segment. A URL outside `/docs` is not served
by the catch-all route. -/
def urlSlugs (url : String) : Option (List String) :=
  if url = "/docs" then some []
  else
    match stripDocsSlash url.data with
    | some rest => some (jsSplitAux '/' [] rest)
    | none => none

/-- A sidebar URL resolves when the content index holds a page for the slug
segments the router derives from it. -/
def pageUrlResolves (url : String) : Bool :=
  match urlSlugs url with
  | some slugs => (getPage slugs).isSome
  | none => false

/-- The leading lines of every Markdown/MDX content file of the repository,
through the closing front matter delimiter, transcribed verbatim: the seven
files under `content/docs` and the two content files of unknown location
(`unnamed/part_000`, `unnamed/part_001`). -/
def contentFileHeads : List (String × String) :=
  [ ("content/docs/(basics)/basic-routing.md",
     "---\ntitle: Layouts and Pages\ndescription: Learn how to create layouts and pages in TanStack Router using file-based routing.\n---"),
    ("content/docs/(basics)/path-params.md",
     "---\ntitle: Path Params\ndescription: Learn how to work with path parameters (dynamic route segments) in TanStack Router.\n---"),
    ("content/docs/(basics)/search-params.md",
     "---\ntitle: Search Params\ndescription: Learn how to work with search params (query strings) in TanStack Router with type safety and validation.\n---"),
    ("content/docs/(hooks)/use-location.md",
     "---\ntitle: useLocation\ndescription: Access current location information including pathname, search params, hash, and other URL data.\n---"),
    ("content/docs/(hooks)/use-navigate.md",
     "---\ntitle: useNavigate\ndescription: Navigate programmatically in TanStack Router for side effects like form submissions and API responses.\n---"),
    ("content/docs/(hooks)/use-params.md",
     "---\ntitle: useParams\ndescription: Access path parameters from the current route with type safety.\n---"),
    ("content/docs/(usages)/pagination.md",
     "---\ntitle: URL-Based Pagination\ndescription: Handle pagination state in URLs with TanStack Router\n---"),
    ("unnamed/part_000",
     "---\ntitle: Navigation\ndescription: Learn how to navigate between routes in TanStack Router using Link, useNavigate, and other navigation methods.\n---"),
    ("unnamed/part_001",
     "---\ntitle: useSearch\ndescription: Access validated search parameters (query strings) from the current route with type safety.\n---") ]

/-- A file begins with a YAML front matter block when its first line is the
`---` delimiter and a closing `---` line follows; the lines strictly between
the delimiters form the block. -/
def frontMatterLines (file : String) : Option (List String) :=
  match jsSplit '\n' file with
  | [] => none
  | first :: rest =>
    if first == "---" && rest.contains "---" then
      some (rest.takeWhile (fun l => l != "---"))
    else none

/-- A character list starts with the given leading characters. -/
def startsWithChars : List Char → List Char → Bool
  | [], _ => true
  | _ :: _, [] => false
  | c :: cs, d :: ds => c == d && startsWithChars cs ds

/-- A front matter block declares a field when one of its lines starts with
the field name followed by a colon. -/
def declaresField (field : String) (fm : List String) : Bool :=
  fm.any (fun l => startsWithChars (field ++ ":").data l.data)

/-- A content file head satisfies the spec's front matter contract: it begins
with a YAML front matter block declaring both `title` and `description`. -/
def hasTitledFrontMatter (file : String) : Bool :=
  match frontMatterLines file with
  | some fm => declaresField "title" fm && declaresField "description" fm
  | none => false

/-- C1: the server-invocable loader signals not-found exactly when the content
source has no page for the slug segments; otherwise it returns the page tree
together with the matched page's canonical path. -/
theorem loader_notFound_iff_no_page (slugs : List String) :
    (loader slugs = none ↔ getPage slugs = none) ∧
    ∀ page, getPage slugs = some page →
      loader slugs = some { tree := pageTree, path := page.path } := by
  constructor
  · cases h : getPage slugs <;> simp [loader, h]
  · intro page hp
    simp [loader, hp]

/-- C1 witness at the slug list of the pagination page. -/
theorem loader_notFound_iff_no_page_witness :
    loader ["pagination"] =
      some { tree := pageTree, path := "(usages)/pagination.md" } :=
  (loader_notFound_iff_no_page ["pagination"]).2
    ⟨["pagination"], "(usages)/pagination.md"⟩ (by decide)

/-- C2: for every splat string captured by the catch-all route, the route
loader derives the slug list by splitting the splat on the slash and looks up
the content page for exactly that list of segments. -/
theorem routeLoader_splits_splat (s : String) :
    slugsOfSplat (some s) = jsSplit '/' s ∧
    (routeLoader (some s)).result = loader (jsSplit '/' s) ∧
    loader (jsSplit '/' s) =
      (getPage (jsSplit '/' s)).map
        (fun page => { tree := pageTree, path := page.path }) := by
  refine ⟨rfl, ?_, ?_⟩
  · cases h : loader (jsSplit '/' s) <;>
      simp [routeLoader, slugsOfSplat, h]
  · cases h : getPage (jsSplit '/' s) <;> simp [loader, h]

/-- C3: whenever the route loader succeeds, the compiled content for the
returned path is preloaded before the data is returned, and the rendered page
obtains its content component for exactly that path. -/
theorem routeLoader_preloads_returned_path (splat : Option String)
    (data : LoaderResult) (h : (routeLoader splat).result = some data) :
    (routeLoader splat).preloads = [data.path] ∧
    (renderPage data).contentPath = data.path := by
  refine ⟨?_, rfl⟩
  cases hl : loader (slugsOfSplat splat) with
  | none => simp [routeLoader, hl] at h
  | some val =>
    simp [routeLoader, hl] at h ⊢
    rw [h]

/-- C3 witness at the splat string of the search-params page. -/
theorem routeLoader_preloads_returned_path_witness :
    (routeLoader (some "search-params")).preloads =
        ["(basics)/search-params.md"] ∧
    (renderPage ⟨pageTree, "(basics)/search-params.md"⟩).contentPath =
      "(basics)/search-params.md" :=
  routeLoader_preloads_returned_path (some "search-params")
    ⟨pageTree, "(basics)/search-params.md"⟩ (by decide)

/-- C4: for the known slug list of search-params, the server loader succeeds
and returns the canonical path of content/docs/(basics)/search-params.md. -/
theorem loader_search_params :
    loader ["search-params"] =
      some { tree := pageTree, path := "(basics)/search-params.md" } := by
  decide

/-- C5 counterexample: the sidebar's Introduction entry is a page node whose
url /docs resolves to no page of the content index (the repository holds no
index content file), so not every page entry's url resolves. -/
theorem sidebar_introduction_url_unresolved :
    (⟨"Introduction", NodeType.page, some "/docs"⟩ : TreeNode) ∈
        sidebarTree.children ∧
    pageUrlResolves "/docs" = false := by
  decide

/-- C5 amended: every sidebar page entry other than the Introduction entry
(url /docs) has a url that resolves to an existing page of the content
index. -/
theorem sidebar_page_urls_resolve_except_introduction :
    (sidebarTree.children.filter
        (fun n => n.type == NodeType.page && !(n.url == some "/docs"))).all
      (fun n => (n.url.map pageUrlResolves).getD false) = true := by
  decide

/-- C6: in the hand-authored navigation tree every page node carries a url and
every separator node carries none, and the tree is a static constant: every
render passes that same tree to the layout, independent of the loader data. -/
theorem sidebar_static_url_invariant :
    sidebarTree.children.all nodeUrlInvariant = true ∧
    ∀ data : LoaderResult, (renderPage data).tree = sidebarTree :=
  ⟨by decide, fun _ => rfl⟩

/-- C7: every Markdown/MDX content file of the repository begins with a YAML
front matter block declaring both a title field and a description field. -/
theorem content_files_have_titled_front_matter :
    contentFileHeads.all (fun f => hasTitledFrontMatter f.2) = true := by
  decide

/-- C8: an absent splat maps to the empty slug list while the empty splat
string maps to a single empty segment, which is not the empty list. -/
theorem splat_absent_vs_empty :
    slugsOfSplat none = [] ∧
    slugsOfSplat (some "") = [""] ∧
    slugsOfSplat (some "") ≠ slugsOfSplat none := by
  decide

/-- C9: when the page lookup fails, the route loader yields no loader data and
performs no preload: the not-found condition propagates and the preload step is
never reached. -/
theorem routeLoader_notFound_no_preload (splat : Option String)
    (h : getPage (slugsOfSplat splat) = none) :
    (routeLoader splat).result = none ∧
    (routeLoader splat).preloads = [] := by
  simp [routeLoader, loader, h]

/-- C9 witness at a splat with no matching page. -/
theorem routeLoader_notFound_no_preload_witness :
    (routeLoader (some "no-such-page")).result = none ∧
    (routeLoader (some "no-such-page")).preloads = [] :=
  routeLoader_notFound_no_preload (some "no-such-page") (by decide)

/-- C10: any two successful results of the server loader carry the same tree,
the content source's whole page tree, independent of which slug was
requested. -/
theorem loader_tree_independent_of_slug (s₁ s₂ : List String)
    (r₁ r₂ : LoaderResult) (h₁ : loader s₁ = some r₁)
    (h₂ : loader s₂ = some r₂) : r₁.tree = r₂.tree := by
  cases hg₁ : getPage s₁ with
  | none => simp [loader, hg₁] at h₁
  | some p₁ =>
    cases hg₂ : getPage s₂ with
    | none => simp [loader, hg₂] at h₂
    | some p₂ =>
      simp [loader, hg₁] at h₁
      simp [loader, hg₂] at h₂
      subst h₁
      subst h₂
      rfl

/-- C10 witness at the search-params and pagination slugs. -/
theorem loader_tree_independent_of_slug_witness :
    (⟨pageTree, "(basics)/search-params.md"⟩ : LoaderResult).tree =
      (⟨pageTree, "(usages)/pagination.md"⟩ : LoaderResult).tree :=
  loader_tree_independent_of_slug ["search-params"] ["pagination"]
    ⟨pageTree, "(basics)/search-params.md"⟩
    ⟨pageTree, "(usages)/pagination.md"⟩ (by decide) (by decide)

end TanstackNotebook
